import Mathlib

/-!
Verification of the adaptive health-polling policy in
`src/frontend/app/api/queries/useProviderHealthQuery.ts`.

The embedding models the two pieces of logic the hook contains:

* `checkProviderHealth` — the classifier turning one fetch outcome
  (a thrown error, or a response with a status code and a body that may
  or may not parse as JSON) into a `ProviderHealthResponse` value;
* `refetchInterval` — the delay policy evaluated after each poll, which
  reads and updates the process-wide `failureCountMap` keyed by the
  series key.

TypeScript interfaces are not enforced at runtime: `response.json()`
returns whatever the body parses to, so the result/body type below makes
every field optional and keeps `status` a plain string.  Counters live in
a JS `Map<string, number>`; JS numbers are modelled as `Int` so that the
non-negativity invariant is a real statement, with the map as an
association list (`Map.set` = prepend, `Map.get` = first match).
-/

/-- Runtime shape of the `details` object (`ProviderHealthDetails` in the
source); its fields are only ever copied verbatim. -/
structure ProviderHealthDetails where
  llm_model : String
  embedding_model : String
  endpoint : Option (Option String)
deriving DecidableEq, Repr

/-- Runtime shape of a parsed JSON body / returned health report.  The
TS interface `ProviderHealthResponse` declares `status` and `message`
required, but nothing checks that at runtime, so both are optional here;
`status` is a plain string because the code compares it with string
literals. -/
structure ProviderHealthResponse where
  status : Option String
  message : Option String
  provider : Option String
  llm_provider : Option String
  embedding_provider : Option String
  llm_error : Option (Option String)
  embedding_error : Option (Option String)
  details : Option ProviderHealthDetails
deriving DecidableEq, Repr

/-- The provider filter (`ProviderHealthParams.provider`), a union of
three non-empty string literals. -/
inductive ProviderFilter
  | openai
  | ollama
  | watsonx
deriving DecidableEq, Repr

/-- The string value of a provider filter. -/
def ProviderFilter.str : ProviderFilter → String
  | .openai => "openai"
  | .ollama => "ollama"
  | .watsonx => "watsonx"

/-- `params?.provider || "unknown"`: the filter's literal is never empty,
so JS truthiness coincides with presence. -/
def filterStr (filter : Option ProviderFilter) : String :=
  match filter with
  | some p => p.str
  | none => "unknown"

/-- JS `a || d` on an optional string `a`: the empty string is falsy. -/
def jsOr (a : Option String) (d : String) : String :=
  match a with
  | some s => if s = "" then d else s
  | none => d

/-- Outcome of one `fetch` call as observed inside the `try` block:
either the fetch itself threw/rejected (`thrown`, carrying the error's
`.message` when it is an `Error` instance), or a response arrived with a
status code and a body that parses to a value (`Except.ok`) or rejects
with a `SyntaxError` whose message is the carried string
(`Except.error`). -/
inductive FetchOutcome
  | thrown (msg : Option String)
  | response (statusCode : Nat) (body : Except String ProviderHealthResponse)
deriving Repr

/-- The empty object `{}` substituted by `.catch(() => ({}))` when an
error-branch body fails to parse: every field extraction on it yields
`undefined`. -/
def emptyBody : ProviderHealthResponse :=
  ⟨none, none, none, none, none, none, none, none⟩

/-- The `catch (error)` handler of `checkProviderHealth`: a
`backend-unavailable` report with the error's message (or the fixed
fallback when the thrown value is not an `Error`) and the filter (or
`"unknown"`) as provider; no other field is populated. -/
def connectionFailure (filter : Option ProviderFilter) (msg : Option String) :
    ProviderHealthResponse :=
  { emptyBody with
    status := some "backend-unavailable"
    message := some (msg.getD "Connection failed")
    provider := some (filterStr filter) }

/-- `checkProviderHealth` from the source, as a function of the fetch
outcome.  `response.ok` is status 200–299.  In the `ok` branch the body
is returned verbatim, but its `json()` call is *not* guarded by
`.catch(() => ({}))`, so a parse failure there propagates to the `catch`
handler; in the 503 and other-error branches the parse failure is
replaced by `{}` before field extraction. -/
def checkProviderHealth (filter : Option ProviderFilter) (o : FetchOutcome) :
    ProviderHealthResponse :=
  match o with
  | .thrown msg => connectionFailure filter msg
  | .response code body =>
    if 200 ≤ code ∧ code ≤ 299 then
      match body with
      | .ok b => b
      | .error m => connectionFailure filter (some m)
    else
      let errorData := match body with | .ok b => b | .error _ => emptyBody
      if code = 503 then
        { status := some "unhealthy"
          message := some (jsOr errorData.message "Provider validation failed")
          provider := some (jsOr errorData.provider (filterStr filter))
          llm_provider := errorData.llm_provider
          embedding_provider := errorData.embedding_provider
          llm_error := errorData.llm_error
          embedding_error := errorData.embedding_error
          details := errorData.details }
      else
        { status := some "error"
          message := some (jsOr errorData.message "Failed to check provider health")
          provider := some (jsOr errorData.provider (filterStr filter))
          llm_provider := errorData.llm_provider
          embedding_provider := errorData.embedding_provider
          llm_error := errorData.llm_error
          embedding_error := errorData.embedding_error
          details := errorData.details }

/-- The process-wide `failureCountMap : Map<string, number>`, as an
association list: `Map.set` prepends, `Map.get` takes the first match. -/
def FailureMap : Type := List (String × Int)

instance : DecidableEq FailureMap := by
  unfold FailureMap
  infer_instance

/-- The map at module initialisation: `new Map()`. -/
def failureCountMapInit : FailureMap := []

/-- `failureCountMap.get(key) || 0`: a missing key reads as 0 (and
`0 || 0` is still 0, so the JS falsy coercion is the identity here). -/
def readCount (m : FailureMap) (key : String) : Int :=
  ((m.find? (fun p => p.1 == key)).map Prod.snd).getD 0

/-- `failureCountMap.set(key, v)`. -/
def mapSet (m : FailureMap) (key : String) (v : Int) : FailureMap :=
  (key, v) :: m

/-- `const backoffDelays = [5000, 10000, 20000, 30000]`. -/
def backoffDelays : List Nat := [5000, 10000, 20000, 30000]

/-- `const failureCountKey = queryKey.join("-")` where
`queryKey = ["provider", "health"]`. -/
def failureCountKey : String := String.intercalate "-" ["provider", "health"]

/-- The `refetchInterval` callback: given the previous report's status
(`query.state.data?.status`, `none` when no poll has completed or the
body had no status) and the current `failureCountMap`, return the delay
in milliseconds and the updated map. -/
def refetchInterval (key : String) (status : Option String) (m : FailureMap) :
    Nat × FailureMap :=
  if status = some "healthy" then
    (30000, mapSet m key 0)
  else if status = some "backend-unavailable" then
    (15000, m)
  else
    let currentFailures := readCount m key
    let m2 := mapSet m key (currentFailures + 1)
    (backoffDelays.getD (min currentFailures ((backoffDelays.length : Int) - 1)).toNat 0,
      m2)

/-- A sequence of policy evaluations for one series key: the list of
delays produced and the final map. -/
def runPolls (key : String) : List (Option String) → FailureMap → List Nat × FailureMap
  | [], m => ([], m)
  | s :: rest, m =>
    let r := refetchInterval key s m
    let rr := runPolls key rest r.2
    (r.1 :: rr.1, rr.2)

/-- Maps reachable from the initial empty map by policy evaluations. -/
inductive ReachableMap : FailureMap → Prop
  | init : ReachableMap failureCountMapInit
  | step (m : FailureMap) (key : String) (s : Option String) :
      ReachableMap m → ReachableMap (refetchInterval key s m).2

/-- The required fields of the declared TS `ProviderHealthResponse`
interface are present. -/
def IsHealthReportShape (b : ProviderHealthResponse) : Prop :=
  b.status.isSome ∧ b.message.isSome

instance (b : ProviderHealthResponse) : Decidable (IsHealthReportShape b) := by
  unfold IsHealthReportShape
  infer_instance

/-- The `enabled` value a caller's options object may carry: the key can
be absent, present with value `undefined`, or present with a boolean. -/
inductive JsVal
  | undef
  | bool (b : Bool)
deriving DecidableEq, Repr

/-- The computed gate
`!!settings?.edited && options?.enabled !== false`. -/
def computedEnabled (edited : Bool) (optEnabled : Option JsVal) : Bool :=
  edited && !(optEnabled == some (.bool false))

/-- The `enabled` property of the object passed to `useQuery`: the
`...options` spread comes *after* the computed `enabled`, so a present
key in `options` overwrites the computed value. -/
def finalEnabledProp (edited : Bool) (optEnabled : Option JsVal) : JsVal :=
  match optEnabled with
  | none => .bool (computedEnabled edited optEnabled)
  | some v => v

/-- Whether the query actually runs: react-query treats an `undefined`
`enabled` as enabled. -/
def effectiveEnabled (edited : Bool) (optEnabled : Option JsVal) : Bool :=
  match finalEnabledProp edited optEnabled with
  | .undef => true
  | .bool b => b

/-! ## Helper lemmas -/

theorem readCount_mapSet_self (m : FailureMap) (key : String) (v : Int) :
    readCount (mapSet m key v) key = v := by
  simp [readCount, mapSet, List.find?]

theorem readCount_mapSet_ne (m : FailureMap) (key k : String) (v : Int)
    (h : k ≠ key) :
    readCount (mapSet m key v) k = readCount m k := by
  have hk : (key == k) = false := beq_eq_false_iff_ne.mpr (Ne.symm h)
  simp [readCount, mapSet, List.find?, hk]

theorem readCount_init (k : String) : readCount failureCountMapInit k = 0 := rfl

theorem refetchInterval_healthy (key : String) (m : FailureMap) :
    refetchInterval key (some "healthy") m = (30000, mapSet m key 0) := by
  simp [refetchInterval]

theorem refetchInterval_backend_unavailable (key : String) (m : FailureMap) :
    refetchInterval key (some "backend-unavailable") m = (15000, m) := by
  simp [refetchInterval]

theorem refetchInterval_other (key : String) (s : Option String) (m : FailureMap)
    (h1 : s ≠ some "healthy") (h2 : s ≠ some "backend-unavailable") :
    refetchInterval key s m =
      (backoffDelays.getD (min (readCount m key) ((backoffDelays.length : Int) - 1)).toNat 0,
       mapSet m key (readCount m key + 1)) := by
  simp [refetchInterval, h1, h2]

theorem runPolls_cons (key : String) (s : Option String)
    (rest : List (Option String)) (m : FailureMap) :
    runPolls key (s :: rest) m =
      ((refetchInterval key s m).1 :: (runPolls key rest (refetchInterval key s m).2).1,
       (runPolls key rest (refetchInterval key s m).2).2) := rfl

theorem err_step (key : String) (m : FailureMap) (c : Int)
    (h : readCount m key = c) :
    refetchInterval key (some "error") m =
      (backoffDelays.getD (min c ((backoffDelays.length : Int) - 1)).toNat 0,
       mapSet m key (c + 1)) := by
  rw [refetchInterval_other key (some "error") m (by simp) (by simp), h]

theorem backoff_at_zero :
    backoffDelays.getD (min (0 : Int) ((backoffDelays.length : Int) - 1)).toNat 0 = 5000 := by
  decide

theorem backoff_at_one :
    backoffDelays.getD (min (1 : Int) ((backoffDelays.length : Int) - 1)).toNat 0 = 10000 := by
  decide

theorem backoff_at_two :
    backoffDelays.getD (min (2 : Int) ((backoffDelays.length : Int) - 1)).toNat 0 = 20000 := by
  decide

theorem backoff_at_three :
    backoffDelays.getD (min (3 : Int) ((backoffDelays.length : Int) - 1)).toNat 0 = 30000 := by
  decide

theorem backoff_at_four :
    backoffDelays.getD (min (4 : Int) ((backoffDelays.length : Int) - 1)).toNat 0 = 30000 := by
  decide

theorem backoff_saturates (c : Int) (h : 3 ≤ c) :
    backoffDelays.getD (min c ((backoffDelays.length : Int) - 1)).toNat 0 = 30000 := by
  have hl : ((backoffDelays.length : Int) - 1) = 3 := by decide
  rw [hl, min_eq_right h]
  decide

theorem runPolls_nil (key : String) (m : FailureMap) :
    runPolls key [] m = ([], m) := rfl

theorem nonneg_step (m : FailureMap) (hm : ∀ k, 0 ≤ readCount m k)
    (key : String) (s : Option String) :
    ∀ k, 0 ≤ readCount (refetchInterval key s m).2 k := by
  intro k
  by_cases hh : s = some "healthy"
  · subst hh
    rw [refetchInterval_healthy]
    by_cases hk : k = key
    · subst hk
      rw [readCount_mapSet_self]
    · rw [readCount_mapSet_ne _ _ _ _ hk]
      exact hm k
  · by_cases hb : s = some "backend-unavailable"
    · subst hb
      rw [refetchInterval_backend_unavailable]
      exact hm k
    · rw [refetchInterval_other key s m hh hb]
      by_cases hk : k = key
      · subst hk
        rw [readCount_mapSet_self]
        have := hm k
        omega
      · rw [readCount_mapSet_ne _ _ _ _ hk]
        exact hm k

/-- C1: starting from a zero failure count for the series key (the
initial state, or right after a `healthy` reset), four consecutive
`error` polls yield delays 5000, 10000, 20000, 30000 ms in that order
and a fifth consecutive `error` yields 30000 ms again; the backoff
table is indexed by the pre-increment counter and saturates at its last
entry (every counter value ≥ 4 still yields 30000 ms). -/
theorem c1_backoff_sequence (key : String) (m : FailureMap)
    (h : readCount m key = 0) :
    (runPolls key
        [some "error", some "error", some "error", some "error", some "error"]
        m).1
      = [5000, 10000, 20000, 30000, 30000] ∧
    ∀ m' : FailureMap, 4 ≤ readCount m' key →
      (refetchInterval key (some "error") m').1 = 30000 := by
  constructor
  · have e1 : refetchInterval key (some "error") m = (5000, mapSet m key 1) := by
      rw [err_step key m 0 h, backoff_at_zero]
      norm_num
    have r1 : readCount (mapSet m key 1) key = 1 := readCount_mapSet_self m key 1
    have e2 : refetchInterval key (some "error") (mapSet m key 1)
        = (10000, mapSet (mapSet m key 1) key 2) := by
      rw [err_step key _ 1 r1, backoff_at_one]
      norm_num
    have r2 : readCount (mapSet (mapSet m key 1) key 2) key = 2 :=
      readCount_mapSet_self _ key 2
    have e3 : refetchInterval key (some "error") (mapSet (mapSet m key 1) key 2)
        = (20000, mapSet (mapSet (mapSet m key 1) key 2) key 3) := by
      rw [err_step key _ 2 r2, backoff_at_two]
      norm_num
    have r3 : readCount (mapSet (mapSet (mapSet m key 1) key 2) key 3) key = 3 :=
      readCount_mapSet_self _ key 3
    have e4 : refetchInterval key (some "error")
          (mapSet (mapSet (mapSet m key 1) key 2) key 3)
        = (30000, mapSet (mapSet (mapSet (mapSet m key 1) key 2) key 3) key 4) := by
      rw [err_step key _ 3 r3, backoff_at_three]
      norm_num
    have r4 : readCount (mapSet (mapSet (mapSet (mapSet m key 1) key 2) key 3) key 4) key
        = 4 := readCount_mapSet_self _ key 4
    have e5 : refetchInterval key (some "error")
          (mapSet (mapSet (mapSet (mapSet m key 1) key 2) key 3) key 4)
        = (30000,
           mapSet (mapSet (mapSet (mapSet (mapSet m key 1) key 2) key 3) key 4) key 5) := by
      rw [err_step key _ 4 r4, backoff_at_four]
      norm_num
    simp [runPolls_cons, runPolls_nil, e1, e2, e3, e4, e5]
  · intro m' hm'
    rw [err_step key m' (readCount m' key) rfl]
    exact backoff_saturates _ (by linarith)

/-- C1 witness: the five-error run from the initial map under the
actual series key. -/
theorem c1_backoff_sequence_witness :
    (runPolls failureCountKey
        [some "error", some "error", some "error", some "error", some "error"]
        failureCountMapInit).1
      = [5000, 10000, 20000, 30000, 30000] :=
  (c1_backoff_sequence failureCountKey failureCountMapInit rfl).1

/-- C2: a `healthy` poll resets the failure counter for the series key
to 0 and returns 30000 ms, so an `error` (or `unhealthy`) poll right
after a `healthy` one yields 5000 ms, not a continuation of the
previous backoff — from any prior counter state. -/
theorem c2_healthy_resets (key : String) (m : FailureMap) :
    refetchInterval key (some "healthy") m = (30000, mapSet m key 0) ∧
    readCount (refetchInterval key (some "healthy") m).2 key = 0 ∧
    (runPolls key [some "healthy", some "error"] m).1 = [30000, 5000] ∧
    (runPolls key [some "healthy", some "unhealthy"] m).1 = [30000, 5000] := by
  have hh := refetchInterval_healthy key m
  have hr : readCount (mapSet m key 0) key = 0 := readCount_mapSet_self m key 0
  have e1 : refetchInterval key (some "error") (mapSet m key 0)
      = (5000, mapSet (mapSet m key 0) key 1) := by
    rw [err_step key _ 0 hr, backoff_at_zero]
    norm_num
  have e2 : refetchInterval key (some "unhealthy") (mapSet m key 0)
      = (5000, mapSet (mapSet m key 0) key 1) := by
    rw [refetchInterval_other key (some "unhealthy") (mapSet m key 0) (by simp) (by simp),
      hr, backoff_at_zero]
    norm_num
  refine ⟨hh, ?_, ?_, ?_⟩
  · rw [hh]
    exact hr
  · simp [runPolls_cons, runPolls_nil, hh, e1]
  · simp [runPolls_cons, runPolls_nil, hh, e2]

/-- C3: a `backend-unavailable` poll returns 15000 ms and leaves the
failure map entirely unchanged (for every counter state), so the
interleaving `error`, `backend-unavailable`, `error` from a zero
counter yields 5000, 15000, 10000 ms — the second `error` continues
from counter value 1. -/
theorem c3_backend_unavailable_untouched (key : String) (m : FailureMap)
    (h : readCount m key = 0) :
    (∀ m' : FailureMap,
      refetchInterval key (some "backend-unavailable") m' = (15000, m')) ∧
    (runPolls key [some "error", some "backend-unavailable", some "error"] m).1
      = [5000, 15000, 10000] := by
  refine ⟨fun m' => refetchInterval_backend_unavailable key m', ?_⟩
  have e1 : refetchInterval key (some "error") m = (5000, mapSet m key 1) := by
    rw [err_step key m 0 h, backoff_at_zero]
    norm_num
  have r1 : readCount (mapSet m key 1) key = 1 := readCount_mapSet_self m key 1
  have e2 := refetchInterval_backend_unavailable key (mapSet m key 1)
  have e3 : refetchInterval key (some "error") (mapSet m key 1)
      = (10000, mapSet (mapSet m key 1) key 2) := by
    rw [err_step key _ 1 r1, backoff_at_one]
    norm_num
  simp [runPolls_cons, runPolls_nil, e1, e2, e3]

/-- C3 witness: the `error`, `backend-unavailable`, `error` interleaving
from the initial map under the actual series key. -/
theorem c3_backend_unavailable_untouched_witness :
    (runPolls failureCountKey
        [some "error", some "backend-unavailable", some "error"]
        failureCountMapInit).1
      = [5000, 15000, 10000] :=
  (c3_backend_unavailable_untouched failureCountKey failureCountMapInit rfl).2

/-- C10: with no previous report (`data?.status` is `undefined`), the
policy takes exactly the unhealthy/error branch: it behaves identically
to an `error` poll, increments the counter for the series key, and
returns the backoff-table entry for the pre-increment count. -/
theorem c10_undefined_status (key : String) (m : FailureMap) :
    refetchInterval key none m = refetchInterval key (some "error") m ∧
    readCount (refetchInterval key none m).2 key = readCount m key + 1 ∧
    (refetchInterval key none m).1
      = backoffDelays.getD
          (min (readCount m key) ((backoffDelays.length : Int) - 1)).toNat 0 := by
  have hn := refetchInterval_other key none m (by simp) (by simp)
  have he := refetchInterval_other key (some "error") m (by simp) (by simp)
  refine ⟨hn.trans he.symm, ?_, ?_⟩
  · rw [hn]
    exact readCount_mapSet_self m key _
  · rw [hn]

/-- C4: a thrown/rejected fetch is handled by the `catch` block and
`checkProviderHealth` returns (rather than raises) a report with status
`backend-unavailable`, message equal to the error's description (or the
fixed fallback "Connection failed" when the thrown value is not an
`Error` instance), provider equal to the supplied filter or "unknown",
and no other provider field populated. -/
theorem c4_thrown_never_raises (filter : Option ProviderFilter) (msg : Option String) :
    checkProviderHealth filter (.thrown msg) =
      { status := some "backend-unavailable"
        message := some (msg.getD "Connection failed")
        provider := some (filterStr filter)
        llm_provider := none
        embedding_provider := none
        llm_error := none
        embedding_error := none
        details := none } := rfl

/-- C5 counterexample: on a success status code (200) with an
unparseable body, the code does NOT substitute an empty object and stay
within the status class determined by the HTTP status code — the
`json()` rejection in the `ok` branch propagates to the `catch` handler
and the report becomes `backend-unavailable`, differing from the result
the empty-object substitution would give. -/
theorem c5_success_unparseable_counterexample :
    checkProviderHealth none
        (.response 200 (Except.error "Unexpected end of JSON input"))
      ≠ checkProviderHealth none (.response 200 (Except.ok emptyBody)) ∧
    (checkProviderHealth none
        (.response 200 (Except.error "Unexpected end of JSON input"))).status
      = some "backend-unavailable" := by
  decide

/-- C5 amended: for every response with a NON-success status code, body
parsing never raises — an unparseable body is replaced by the empty
object before field extraction, so the result is identical to receiving
an empty-object body within the already-determined status; for a
success status code, however, the parse failure propagates to the catch
handler and yields a `backend-unavailable` report carrying the parse
error's message. -/
theorem c5_parse_failure_defaults (filter : Option ProviderFilter) (code : Nat)
    (e : String) (h : ¬(200 ≤ code ∧ code ≤ 299)) :
    checkProviderHealth filter (.response code (Except.error e))
      = checkProviderHealth filter (.response code (Except.ok emptyBody)) ∧
    checkProviderHealth filter (.response 200 (Except.error e))
      = connectionFailure filter (some e) := by
  constructor
  · simp [checkProviderHealth, h]
  · rfl

/-- C5 witness: at status code 404 the unparseable body behaves exactly
like an empty-object body. -/
theorem c5_parse_failure_defaults_witness :
    checkProviderHealth none (.response 404 (Except.error "bad json"))
      = checkProviderHealth none (.response 404 (Except.ok emptyBody)) :=
  (c5_parse_failure_defaults none 404 "bad json" (by decide)).1

/-- C7: an HTTP 503 response with an unparseable body yields exactly
status `unhealthy`, message "Provider validation failed", provider the
supplied filter (or "unknown" when none), and every other optional
field absent. -/
theorem c7_503_unparseable_defaults (filter : Option ProviderFilter) (e : String) :
    checkProviderHealth filter (.response 503 (Except.error e)) =
      { status := some "unhealthy"
        message := some "Provider validation failed"
        provider := some (filterStr filter)
        llm_provider := none
        embedding_provider := none
        llm_error := none
        embedding_error := none
        details := none } := rfl

/-- A concrete well-shaped report, as in the spec's example body. -/
def sampleReport : ProviderHealthResponse :=
  ⟨some "healthy", some "ok", none, none, none, none, none,
   some ⟨"m1", "m2", none⟩⟩

/-- C8: a response with a success status code (200–299) whose body
parses as the declared HealthReport shape is returned verbatim — no
field is replaced, defaulted, or added. -/
theorem c8_success_verbatim (filter : Option ProviderFilter) (code : Nat)
    (b : ProviderHealthResponse) (h1 : 200 ≤ code) (h2 : code ≤ 299)
    (_hshape : IsHealthReportShape b) :
    checkProviderHealth filter (.response code (Except.ok b)) = b := by
  simp [checkProviderHealth, h1, h2]

/-- C8 witness: the spec's example body at status 200 comes back
unchanged. -/
theorem c8_success_verbatim_witness :
    IsHealthReportShape sampleReport ∧
    checkProviderHealth none (.response 200 (Except.ok sampleReport)) = sampleReport :=
  ⟨by decide, c8_success_verbatim none 200 sampleReport (by decide) (by decide) (by decide)⟩

/-- C6: the `...options` spread is written AFTER the computed
`enabled: !!settings?.edited && options?.enabled !== false`, so a
caller-supplied `enabled` key overwrites the onboarding gate: with the
onboarding-complete flag false and `options = \x7b enabled: true \x7d`
the query is enabled and polls are issued, contradicting both the claim
and the code's own comment ("Only run after onboarding is complete").
The second conjunct shows the computed gate's
`options?.enabled !== false` conjunct is dead code: the effective
enabled value reduces to the caller's value whenever the key is
present, and to the flag alone otherwise. -/
theorem c6_enabled_gate_bug :
    effectiveEnabled false (some (.bool true)) = true ∧
    ∀ (edited : Bool) (optEnabled : Option JsVal),
      effectiveEnabled edited optEnabled =
        match optEnabled with
        | none => edited
        | some .undef => true
        | some (.bool b) => b := by
  constructor
  · rfl
  · intro edited optEnabled
    rcases optEnabled with _ | v
    · cases edited <;> rfl
    · rcases v with _ | b
      · rfl
      · cases b <;> rfl

/-- C9: on every reachable failure map the counter of every series key
is non-negative, and each policy evaluation either resets the key's
counter to 0 (`healthy`), leaves the whole map untouched
(`backend-unavailable`), or increments the key's counter by exactly 1
leaving all other keys unchanged (`unhealthy`, `error`, or no status). -/
theorem c9_counter_invariant (m : FailureMap) (h : ReachableMap m) :
    (∀ k, 0 ≤ readCount m k) ∧
    ∀ (key : String) (s : Option String),
      (s = some "healthy" → (refetchInterval key s m).2 = mapSet m key 0) ∧
      (s = some "backend-unavailable" → (refetchInterval key s m).2 = m) ∧
      (s ≠ some "healthy" → s ≠ some "backend-unavailable" →
        readCount (refetchInterval key s m).2 key = readCount m key + 1 ∧
        ∀ k, k ≠ key → readCount (refetchInterval key s m).2 k = readCount m k) := by
  constructor
  · induction h with
    | init =>
      intro k
      simp [readCount_init]
    | step m' key s hm ih =>
      exact nonneg_step m' ih key s
  · intro key s
    refine ⟨?_, ?_, ?_⟩
    · intro hs
      subst hs
      simp [refetchInterval_healthy]
    · intro hs
      subst hs
      simp [refetchInterval_backend_unavailable]
    · intro h1 h2
      rw [refetchInterval_other key s m h1 h2]
      exact ⟨readCount_mapSet_self m key _,
        fun k hk => readCount_mapSet_ne m key k _ hk⟩

/-- C9 witness: the map reached after one `error` poll from the initial
state has a non-negative counter for the series key. -/
theorem c9_counter_invariant_witness :
    0 ≤ readCount
        (refetchInterval failureCountKey (some "error") failureCountMapInit).2
        failureCountKey :=
  (c9_counter_invariant _
    (ReachableMap.step _ failureCountKey (some "error") ReachableMap.init)).1
    failureCountKey
